import Mathlib

/-!
Shallow embedding of `src/main.rs` of the pinlock repository: a minimal
X11 client that creates one window, grabs keyboard and pointer, and runs
a blocking event-dispatch loop until a primary button press.

The embedding models the X requests a run issues as a trace
(`List XRequest`), fallible library calls via an explicit failure oracle
(`Option Nat`, the index of the first failing call), console output as
structured `Report` values (one constructor per distinct `println!`
format in the source), and the dispatch loop as a function over the list
of results the blocking `wait_for_event` would return.
-/

/-- `x11rb::COPY_DEPTH_FROM_PARENT`. -/
def COPY_DEPTH_FROM_PARENT : Nat := 0

/-- `x11rb::CURRENT_TIME` sentinel timestamp. -/
def CURRENT_TIME : Nat := 0

/-- `EventMask::EXPOSURE` (bit 15). -/
def EventMask_EXPOSURE : Nat := 32768

/-- `EventMask::BUTTON_PRESS` (bit 2). -/
def EventMask_BUTTON_PRESS : Nat := 4

/-- `EventMask::BUTTON_RELEASE` (bit 3). -/
def EventMask_BUTTON_RELEASE : Nat := 8

/-- `EventMask::POINTER_MOTION` (bit 6). -/
def EventMask_POINTER_MOTION : Nat := 64

/-- `EventMask::ENTER_WINDOW` (bit 4). -/
def EventMask_ENTER_WINDOW : Nat := 16

/-- `EventMask::LEAVE_WINDOW` (bit 5). -/
def EventMask_LEAVE_WINDOW : Nat := 32

/-- `EventMask::KEY_PRESS` (bit 0). -/
def EventMask_KEY_PRESS : Nat := 1

/-- `EventMask::KEY_RELEASE` (bit 1). -/
def EventMask_KEY_RELEASE : Nat := 2

/-- `EventMask::NO_EVENT`. -/
def EventMask_NO_EVENT : Nat := 0

/-- `GrabMode::ASYNC`. -/
def GrabMode_ASYNC : Nat := 1

/-- `InputFocus::PARENT`. -/
def InputFocus_PARENT : Nat := 2

/-- `WindowClass::INPUT_OUTPUT`. -/
def WindowClass_INPUT_OUTPUT : Nat := 1

/-- The event mask passed to `CreateWindowAux::event_mask` in `Window::create`. -/
def windowEventMask : Nat :=
  EventMask_EXPOSURE ||| EventMask_BUTTON_PRESS ||| EventMask_BUTTON_RELEASE |||
  EventMask_POINTER_MOTION ||| EventMask_ENTER_WINDOW ||| EventMask_LEAVE_WINDOW |||
  EventMask_KEY_PRESS ||| EventMask_KEY_RELEASE

/-- One X protocol request issued over the connection, with the argument
values the source passes.  Only requests actually sent appear in a trace. -/
inductive XRequest where
  | createWindow (depth win parent : Nat) (x y : Int)
      (width height borderWidth winKind visual : Nat)
      (overrideRedirect backgroundPixel eventMask : Nat)
  | mapWindow (win : Nat)
  | flush
  | setInputFocus (revertTo win time : Nat)
  | grabKeyboard (ownerEvents : Bool) (grabWindow time pointerMode keyboardMode : Nat)
  | openFont (fid : Nat) (name : String)
  | createGlyphCursor (cid sourceFont maskFont sourceChar maskChar
      foreRed foreGreen foreBlue backRed backGreen backBlue : Nat)
  | grabPointer (ownerEvents : Bool)
      (grabWindow eventMask pointerMode keyboardMode confineTo cursor time : Nat)
  | ungrabKeyboard (time : Nat)
  | ungrabPointer (time : Nat)
  deriving DecidableEq

/-- Fields of `ExposeEvent` used by the loop. -/
structure ExposeEvent where
  window : Nat
  x : Nat
  y : Nat
  width : Nat
  height : Nat
  deriving DecidableEq

/-- Fields of `ButtonPressEvent` / `ButtonReleaseEvent` used by the loop. -/
structure ButtonEvent where
  detail : Nat
  state : Nat
  event : Nat
  event_x : Int
  event_y : Int
  deriving DecidableEq

/-- Fields of the pointer crossing / motion events used by the loop. -/
structure MotionEvent where
  event : Nat
  event_x : Int
  event_y : Int
  deriving DecidableEq

/-- Fields of `KeyPressEvent` / `KeyReleaseEvent` used by the loop. -/
structure KeyEvent where
  state : Nat
  event : Nat
  deriving DecidableEq

/-- The `x11rb::protocol::Event` variants the dispatch loop distinguishes.
`other` stands for every variant outside the recognized set, carrying a
tag so that distinct unrecognized events stay distinct. -/
inductive Event where
  | expose (e : ExposeEvent)
  | buttonPress (e : ButtonEvent)
  | buttonRelease (e : ButtonEvent)
  | motionNotify (e : MotionEvent)
  | enterNotify (e : MotionEvent)
  | leaveNotify (e : MotionEvent)
  | keyPress (e : KeyEvent)
  | keyRelease (e : KeyEvent)
  | other (tag : Nat)
  deriving DecidableEq

/-- One console report.  Each constructor corresponds to one distinct
`println!` format string in the source, carrying the interpolated values. -/
inductive Report where
  | exposed (window x y width height : Nat)
  | modifierState (state : Nat)
  | wheelUp (window : Nat) (x y : Int)
  | wheelDown (window : Nat) (x y : Int)
  | buttonPressed (detail window : Nat) (x y : Int)
  | buttonReleased (detail window : Nat) (x y : Int)
  | mouseMoved (window : Nat) (x y : Int)
  | mouseEntered (window : Nat) (x y : Int)
  | mouseLeft (window : Nat) (x y : Int)
  | keyPressed (window : Nat)
  | keyReleased (window : Nat)
  | unknownEvent (tag : Nat)
  deriving DecidableEq

/-- The body of one iteration of the `loop` in `main`: the reports printed
for the event, and whether the loop continues (`true`) or terminates via
`break Ok(())` (`false`). -/
def dispatch : Event → List Report × Bool
  | .expose e => ([.exposed e.window e.x e.y e.width e.height], true)
  | .buttonPress e =>
      if e.detail = 1 then ([.modifierState e.state], false)
      else if e.detail = 4 then
        ([.modifierState e.state, .wheelUp e.event e.event_x e.event_y], true)
      else if e.detail = 5 then
        ([.modifierState e.state, .wheelDown e.event e.event_x e.event_y], true)
      else
        ([.modifierState e.state,
          .buttonPressed e.detail e.event e.event_x e.event_y], true)
  | .buttonRelease e =>
      ([.modifierState e.state,
        .buttonReleased e.detail e.event e.event_x e.event_y], true)
  | .motionNotify e => ([.mouseMoved e.event e.event_x e.event_y], true)
  | .enterNotify e => ([.mouseEntered e.event e.event_x e.event_y], true)
  | .leaveNotify e => ([.mouseLeft e.event e.event_x e.event_y], true)
  | .keyPress e => ([.modifierState e.state, .keyPressed e.event], true)
  | .keyRelease e => ([.modifierState e.state, .keyReleased e.event], true)
  | .other t => ([.unknownEvent t], true)

/-- Result of one blocking `conn.wait_for_event()` call: an event, or a
connection-level receive failure. -/
inductive RecvResult where
  | ok (e : Event)
  | err
  deriving DecidableEq

/-- Outcome of running the dispatch loop on a finite list of receive
results: `success` (terminated via `break Ok(())`), `failure` (the `?` on
`wait_for_event` propagated an error), or `pending` (the supplied results
were exhausted with the loop still blocked waiting).  Each carries the
reports printed so far. -/
inductive LoopOutcome where
  | success (reports : List Report)
  | failure (reports : List Report)
  | pending (reports : List Report)
  deriving DecidableEq

/-- Prepend reports to a loop outcome's report list. -/
def LoopOutcome.prepend (rs : List Report) : LoopOutcome → LoopOutcome
  | .success more => .success (rs ++ more)
  | .failure more => .failure (rs ++ more)
  | .pending more => .pending (rs ++ more)

/-- The dispatch loop of `main`, driven by a finite list of receive results. -/
def runLoop : List RecvResult → LoopOutcome
  | [] => .pending []
  | .err :: _ => .failure []
  | .ok e :: rest =>
      let d := dispatch e
      if d.2 then LoopOutcome.prepend d.1 (runLoop rest)
      else .success d.1

/-- How the loop ended, forgetting the reports. -/
inductive LoopStatus where
  | success
  | failure
  | pending
  deriving DecidableEq

/-- Status projection of a loop outcome. -/
def LoopOutcome.status : LoopOutcome → LoopStatus
  | .success _ => .success
  | .failure _ => .failure
  | .pending _ => .pending

/-- Reports projection of a loop outcome. -/
def LoopOutcome.reports : LoopOutcome → List Report
  | .success rs => rs
  | .failure rs => rs
  | .pending rs => rs

/-- The Rust `Window` struct (the borrowed connection is not data). -/
structure Window where
  id : Nat
  deriving DecidableEq

/-- Result of `Window::create`: the window and the trace of requests sent,
or an error together with the requests sent before the failing call. -/
inductive CreateResult where
  | ok (w : Window) (trace : List XRequest)
  | err (trace : List XRequest)
  deriving DecidableEq

/-- Trace projection of a create result. -/
def CreateResult.trace : CreateResult → List XRequest
  | .ok _ t => t
  | .err t => t

/-- Whether creation succeeded. -/
def CreateResult.isOk : CreateResult → Bool
  | .ok _ _ => true
  | .err _ => false

/-- `Window::create(connection, screen)`.  `root` and `rootVisual` are the
screen's fields; `firstId` is the first id `generate_id` hands out (the
next two calls return `firstId+1`, `firstId+2`).  `failAt` is the index
of the first failing fallible call, in program order: 0 `generate_id`,
1 `create_window`, 2 `map_window`, 3 `flush`, 4 `set_input_focus`,
5 `grab_keyboard`, 6 `generate_id`, 7 `open_font`, 8 `generate_id`,
9 `create_glyph_cursor`, 10 `grab_pointer`, 11 `flush`; `none` (or an
index past 11) means every call succeeds.  A failing call sends nothing. -/
def Window.create (root rootVisual firstId : Nat) (failAt : Option Nat) : CreateResult :=
  if failAt = some 0 then .err [] else
  let win := firstId
  if failAt = some 1 then .err [] else
  let t := [XRequest.createWindow COPY_DEPTH_FROM_PARENT win root 455 140
              1000 800 0 WindowClass_INPUT_OUTPUT rootVisual 1 31 windowEventMask]
  if failAt = some 2 then .err t else
  let t := t ++ [XRequest.mapWindow win]
  if failAt = some 3 then .err t else
  let t := t ++ [XRequest.flush]
  if failAt = some 4 then .err t else
  let t := t ++ [XRequest.setInputFocus InputFocus_PARENT win CURRENT_TIME]
  if failAt = some 5 then .err t else
  let t := t ++ [XRequest.grabKeyboard true win CURRENT_TIME GrabMode_ASYNC GrabMode_ASYNC]
  if failAt = some 6 then .err t else
  let font := firstId + 1
  if failAt = some 7 then .err t else
  let t := t ++ [XRequest.openFont font "cursor"]
  if failAt = some 8 then .err t else
  let cursor := firstId + 2
  if failAt = some 9 then .err t else
  let t := t ++ [XRequest.createGlyphCursor cursor font font 58 59 0 0 0 0 0 0]
  if failAt = some 10 then .err t else
  let t := t ++ [XRequest.grabPointer true win EventMask_NO_EVENT
                   GrabMode_ASYNC GrabMode_ASYNC win cursor CURRENT_TIME]
  if failAt = some 11 then .err t else
  let t := t ++ [XRequest.flush]
  .ok { id := win } t

/-- Result of `Drop for Window`: the requests sent, and whether one of the
`expect` calls fired (aborting the process) or the whole body ran. -/
inductive DropResult where
  | ok (trace : List XRequest)
  | aborted (trace : List XRequest)
  deriving DecidableEq

/-- Trace projection of a drop result. -/
def DropResult.trace : DropResult → List XRequest
  | .ok t => t
  | .aborted t => t

/-- Whether the drop body ran without any `expect` firing. -/
def DropResult.isOk : DropResult → Bool
  | .ok _ => true
  | .aborted _ => false

/-- `Drop::drop` for `Window`.  `failAt` indexes the first failing fallible
point, in program order: 0 the `ungrab_keyboard` request cannot be sent,
1 its `check()` reports a protocol error, 2 the `ungrab_pointer` request
cannot be sent, 3 its `check()` reports a protocol error, 4 `flush`
fails; `none` (or an index past 4) means everything succeeds.  Each
failure fires the corresponding `expect`, aborting immediately. -/
def Window.drop (failAt : Option Nat) : DropResult :=
  if failAt = some 0 then .aborted [] else
  let t := [XRequest.ungrabKeyboard CURRENT_TIME]
  if failAt = some 1 then .aborted t else
  if failAt = some 2 then .aborted t else
  let t := t ++ [XRequest.ungrabPointer CURRENT_TIME]
  if failAt = some 3 then .aborted t else
  if failAt = some 4 then .aborted t else
  .ok (t ++ [XRequest.flush])

/-- The nondeterministic environment for one run of `main`: whether
`x11rb::connect` succeeds, the target screen's fields, the ids
`generate_id` hands out, the failure oracles for creation and teardown,
and the results the blocking `wait_for_event` would deliver. -/
structure ProgInput where
  connectOk : Bool
  root : Nat
  rootVisual : Nat
  firstId : Nat
  createFailAt : Option Nat
  events : List RecvResult
  dropFailAt : Option Nat

/-- Outcome of one run of `main`: the process exit status (success for
`Ok(())` from `main`, failure for an `Err` return or an abort in drop),
or still running (the event list was exhausted while the loop blocks),
together with the full trace of requests sent and reports printed. -/
inductive ProgOutcome where
  | exitSuccess (trace : List XRequest) (reports : List Report)
  | exitFailure (trace : List XRequest) (reports : List Report)
  | running (trace : List XRequest) (reports : List Report)
  deriving DecidableEq

/-- Trace projection of a program outcome. -/
def ProgOutcome.trace : ProgOutcome → List XRequest
  | .exitSuccess t _ => t
  | .exitFailure t _ => t
  | .running t _ => t

/-- Reports projection of a program outcome. -/
def ProgOutcome.reports : ProgOutcome → List Report
  | .exitSuccess _ rs => rs
  | .exitFailure _ rs => rs
  | .running _ rs => rs

/-- Whether the process exited with success status. -/
def ProgOutcome.isExitSuccess : ProgOutcome → Bool
  | .exitSuccess _ _ => true
  | _ => false

/-- Whether the process exited with failure status. -/
def ProgOutcome.isExitFailure : ProgOutcome → Bool
  | .exitFailure _ _ => true
  | _ => false

/-- `fn main()`.  Connect; on failure exit with failure.  Create the
window; on failure the `?` returns `Err` and, since no `Window` value was
ever constructed, `Drop` does not run.  Otherwise run the dispatch loop;
when it ends (by `break Ok(())` or a receive error) the `Window` local
goes out of scope and `Drop::drop` runs; an abort inside drop makes the
exit a failure regardless of how the loop ended. -/
def mainRun (inp : ProgInput) : ProgOutcome :=
  if inp.connectOk = false then .exitFailure [] [] else
  match Window.create inp.root inp.rootVisual inp.firstId inp.createFailAt with
  | .err t => .exitFailure t []
  | .ok _ t =>
    match runLoop inp.events with
    | .pending rs => .running t rs
    | .success rs =>
        match Window.drop inp.dropFailAt with
        | .ok td => .exitSuccess (t ++ td) rs
        | .aborted td => .exitFailure (t ++ td) rs
    | .failure rs =>
        match Window.drop inp.dropFailAt with
        | .ok td => .exitFailure (t ++ td) rs
        | .aborted td => .exitFailure (t ++ td) rs

/-- Boolean test: is the request a `grab_keyboard`? -/
def XRequest.isGrabKeyboard : XRequest → Bool
  | .grabKeyboard _ _ _ _ _ => true
  | _ => false

/-- Boolean test: is the request an `ungrab_keyboard`? -/
def XRequest.isUngrabKeyboard : XRequest → Bool
  | .ungrabKeyboard _ => true
  | _ => false

/-- Boolean test: is the request a `grab_pointer`? -/
def XRequest.isGrabPointer : XRequest → Bool
  | .grabPointer _ _ _ _ _ _ _ _ => true
  | _ => false

/-- Boolean test: is the request an `ungrab_pointer`? -/
def XRequest.isUngrabPointer : XRequest → Bool
  | .ungrabPointer _ => true
  | _ => false

/-- Boolean test: is the request a `create_window`? -/
def XRequest.isCreateWindow : XRequest → Bool
  | .createWindow _ _ _ _ _ _ _ _ _ _ _ _ _ => true
  | _ => false

/-- Boolean test: is the request a `flush`? -/
def XRequest.isFlush : XRequest → Bool
  | .flush => true
  | _ => false

/-- Whether every receive result in the list delivers an event whose
dispatch lets the loop continue (no termination, no receive error). -/
def allContinue : List RecvResult → Bool
  | [] => true
  | .err :: _ => false
  | .ok e :: rest => (dispatch e).2 && allContinue rest

/-- Whether the loop, fed this list, reaches a terminating event (one whose
dispatch breaks the loop) before any receive error. -/
def terminatesWithPrimary : List RecvResult → Bool
  | [] => false
  | .err :: _ => false
  | .ok e :: rest => if (dispatch e).2 then terminatesWithPrimary rest else true

theorem LoopOutcome.status_prepend (rs : List Report) (o : LoopOutcome) :
    (LoopOutcome.prepend rs o).status = o.status := by
  cases o <;> rfl

theorem LoopOutcome.reports_prepend (rs : List Report) (o : LoopOutcome) :
    (LoopOutcome.prepend rs o).reports = rs ++ o.reports := by
  cases o <;> rfl

theorem LoopOutcome.prepend_prepend (rs1 rs2 : List Report) (o : LoopOutcome) :
    LoopOutcome.prepend rs1 (LoopOutcome.prepend rs2 o)
      = LoopOutcome.prepend (rs1 ++ rs2) o := by
  cases o <;> simp [LoopOutcome.prepend]

theorem LoopOutcome.prepend_nil (o : LoopOutcome) :
    LoopOutcome.prepend [] o = o := by
  cases o <;> simp [LoopOutcome.prepend]

/-- Splitting the loop at a continuing prefix: the suffix is processed
exactly as it would be from the start, with the prefix's reports in front. -/
theorem runLoop_append (pfx rest : List RecvResult) (h : allContinue pfx = true) :
    runLoop (pfx ++ rest) = LoopOutcome.prepend (runLoop pfx).reports (runLoop rest) := by
  induction pfx with
  | nil => simp [runLoop, LoopOutcome.reports, LoopOutcome.prepend_nil]
  | cons r pfx ih =>
    cases r with
    | err => simp [allContinue] at h
    | ok e =>
      simp only [allContinue, Bool.and_eq_true] at h
      obtain ⟨h1, h2⟩ := h
      simp [runLoop, h1, ih h2, LoopOutcome.prepend_prepend, LoopOutcome.reports_prepend]

/-- The loop ends in `success` exactly when a terminating event arrives
before any receive error. -/
theorem runLoop_success_iff (l : List RecvResult) :
    (runLoop l).status = LoopStatus.success ↔ terminatesWithPrimary l = true := by
  induction l with
  | nil => simp [runLoop, terminatesWithPrimary, LoopOutcome.status]
  | cons r rest ih =>
    cases r with
    | err => simp [runLoop, terminatesWithPrimary, LoopOutcome.status]
    | ok e =>
      by_cases hd : (dispatch e).2 = true
      · simp [runLoop, terminatesWithPrimary, hd, LoopOutcome.status_prepend, ih]
      · simp only [Bool.not_eq_true] at hd
        simp [runLoop, terminatesWithPrimary, hd, LoopOutcome.status]

/-- C1: for every ButtonPress event delivered to the dispatch loop, the
loop terminates successfully iff the event's button code (`detail`)
equals 1; for every other button code the iteration reports and the loop
continues to the next iteration. -/
theorem buttonPress_terminates_iff_detail_one (e : ButtonEvent) (rest : List RecvResult) :
    ((dispatch (Event.buttonPress e)).2 = false ↔ e.detail = 1)
    ∧ (e.detail = 1 →
        runLoop (RecvResult.ok (Event.buttonPress e) :: rest)
          = LoopOutcome.success [Report.modifierState e.state])
    ∧ (e.detail ≠ 1 →
        (runLoop (RecvResult.ok (Event.buttonPress e) :: rest)).status = (runLoop rest).status
        ∧ (dispatch (Event.buttonPress e)).1 ≠ []) := by
  refine ⟨?_, ?_, ?_⟩
  · by_cases h1 : e.detail = 1
    · simp [dispatch, h1]
    · simp only [dispatch, h1, if_false]
      split_ifs <;> simp [h1]
  · intro h1
    simp [runLoop, dispatch, h1]
  · intro h1
    constructor
    · simp only [runLoop, dispatch, h1, if_false]
      split_ifs <;> simp_all [LoopOutcome.status_prepend]
    · simp only [dispatch, h1, if_false]
      split_ifs <;> simp

theorem buttonPress_terminates_iff_detail_one_witness :
    (runLoop [RecvResult.ok (Event.buttonPress ⟨1, 6, 7, 2, 3⟩)]
        = LoopOutcome.success [Report.modifierState 6])
    ∧ (runLoop [RecvResult.ok (Event.buttonPress ⟨255, 6, 7, 2, 3⟩)]).status
        = (runLoop ([] : List RecvResult)).status :=
  ⟨(buttonPress_terminates_iff_detail_one ⟨1, 6, 7, 2, 3⟩ []).2.1 rfl,
   ((buttonPress_terminates_iff_detail_one ⟨255, 6, 7, 2, 3⟩ []).2.2 (by decide)).1⟩

/-- C4: a fully successful `Window::create` issues, in order: the
window-creation request (depth copied from parent, position (455,140),
size 1000x800, zero border, override-redirect on, fixed background 31,
the combined event mask), map, flush, set-input-focus with the
current-time sentinel, the asynchronous keyboard grab, the cursor-font
open, the glyph cursor built from the pair 58/59, the pointer grab with
that cursor and no additional event mask, and a final flush. -/
theorem create_issues_requests_in_order (root rootVisual firstId : Nat) :
    Window.create root rootVisual firstId none
      = CreateResult.ok { id := firstId }
          [XRequest.createWindow COPY_DEPTH_FROM_PARENT firstId root 455 140 1000 800 0
             WindowClass_INPUT_OUTPUT rootVisual 1 31 windowEventMask,
           XRequest.mapWindow firstId,
           XRequest.flush,
           XRequest.setInputFocus InputFocus_PARENT firstId CURRENT_TIME,
           XRequest.grabKeyboard true firstId CURRENT_TIME GrabMode_ASYNC GrabMode_ASYNC,
           XRequest.openFont (firstId + 1) "cursor",
           XRequest.createGlyphCursor (firstId + 2) (firstId + 1) (firstId + 1)
             58 59 0 0 0 0 0 0,
           XRequest.grabPointer true firstId EventMask_NO_EVENT GrabMode_ASYNC GrabMode_ASYNC
             firstId (firstId + 2) CURRENT_TIME,
           XRequest.flush]
    ∧ windowEventMask
        = EventMask_EXPOSURE ||| EventMask_BUTTON_PRESS ||| EventMask_BUTTON_RELEASE |||
          EventMask_POINTER_MOTION ||| EventMask_ENTER_WINDOW ||| EventMask_LEAVE_WINDOW |||
          EventMask_KEY_PRESS ||| EventMask_KEY_RELEASE :=
  ⟨rfl, rfl⟩

theorem create_issues_requests_in_order_witness :
    (Window.create 5 9 100 none).isOk = true := by
  rw [(create_issues_requests_in_order 5 9 100).1]
  rfl

/-- C5: a fully successful teardown issues, in order: the keyboard
ungrab, the pointer ungrab, and a flush; and every failure at any of the
five fallible points (either ungrab request failing to send, either
verification reporting a protocol error, or the flush failing) fires an
`expect` and aborts the process. -/
theorem drop_releases_in_order :
    Window.drop none
      = DropResult.ok [XRequest.ungrabKeyboard CURRENT_TIME,
                       XRequest.ungrabPointer CURRENT_TIME,
                       XRequest.flush]
    ∧ (∀ k : Nat, k ≤ 4 → (Window.drop (some k)).isOk = false) := by
  refine ⟨rfl, ?_⟩
  intro k hk
  interval_cases k <;> rfl

theorem drop_releases_in_order_witness :
    (Window.drop (some 3)).isOk = false :=
  drop_releases_in_order.2 3 (by decide)

/-- C6: ButtonPress with code 4 is reported as wheel up, code 5 as wheel
down, via report forms distinct from the generic numeric button report
(and from each other), and the loop continues after each such event. -/
theorem wheel_buttons_reported_distinctly (e : ButtonEvent) :
    (e.detail = 4 → dispatch (Event.buttonPress e)
        = ([Report.modifierState e.state,
            Report.wheelUp e.event e.event_x e.event_y], true))
    ∧ (e.detail = 5 → dispatch (Event.buttonPress e)
        = ([Report.modifierState e.state,
            Report.wheelDown e.event e.event_x e.event_y], true))
    ∧ (∀ rest : List RecvResult, e.detail = 4 ∨ e.detail = 5 →
        (runLoop (RecvResult.ok (Event.buttonPress e) :: rest)).status
          = (runLoop rest).status)
    ∧ (∀ w d w2 : Nat, ∀ x y x2 y2 : Int,
        Report.wheelUp w x y ≠ Report.buttonPressed d w2 x2 y2
        ∧ Report.wheelDown w x y ≠ Report.buttonPressed d w2 x2 y2
        ∧ Report.wheelUp w x y ≠ Report.wheelDown w2 x2 y2) := by
  refine ⟨?_, ?_, ?_, ?_⟩
  · intro h; simp [dispatch, h]
  · intro h; simp [dispatch, h]
  · intro rest h
    rcases h with h | h <;> simp [runLoop, dispatch, h, LoopOutcome.status_prepend]
  · intro w d w2 x y x2 y2
    refine ⟨by simp, by simp, by simp⟩

theorem wheel_buttons_reported_distinctly_witness :
    dispatch (Event.buttonPress ⟨4, 0, 9, 1, 2⟩)
      = ([Report.modifierState 0, Report.wheelUp 9 1 2], true)
    ∧ dispatch (Event.buttonPress ⟨5, 0, 9, 1, 2⟩)
      = ([Report.modifierState 0, Report.wheelDown 9 1 2], true) :=
  ⟨(wheel_buttons_reported_distinctly ⟨4, 0, 9, 1, 2⟩).1 rfl,
   (wheel_buttons_reported_distinctly ⟨5, 0, 9, 1, 2⟩).2.1 rfl⟩

/-- C9: in a successful creation, the keyboard grab is issued with
owner_events true, and the pointer grab is issued with owner_events true
and with confine_to equal to the created window's id. -/
theorem grabs_owner_events_and_confine (root rootVisual firstId : Nat) :
    ((Window.create root rootVisual firstId none).trace.filter XRequest.isGrabKeyboard
        = [XRequest.grabKeyboard true firstId CURRENT_TIME GrabMode_ASYNC GrabMode_ASYNC])
    ∧ ((Window.create root rootVisual firstId none).trace.filter XRequest.isGrabPointer
        = [XRequest.grabPointer true firstId EventMask_NO_EVENT GrabMode_ASYNC GrabMode_ASYNC
             firstId (firstId + 2) CURRENT_TIME]) :=
  ⟨rfl, rfl⟩

theorem grabs_owner_events_and_confine_witness :
    (Window.create 3 4 10 none).trace.filter XRequest.isGrabPointer
      = [XRequest.grabPointer true 10 EventMask_NO_EVENT GrabMode_ASYNC GrabMode_ASYNC
           10 12 CURRENT_TIME] :=
  (grabs_owner_events_and_confine 3 4 10).2

/-- C10: if releasing the keyboard grab in teardown fails — the request
cannot be sent (index 0) or its verification reports a protocol error
(index 1) — the drop body aborts there: the pointer ungrab and the final
flush are never issued. -/
theorem drop_keyboard_failure_aborts_early (k : Nat) (h : k ≤ 1) :
    (Window.drop (some k)).isOk = false
    ∧ (Window.drop (some k)).trace.countP XRequest.isUngrabPointer = 0
    ∧ (Window.drop (some k)).trace.countP XRequest.isFlush = 0 := by
  interval_cases k <;> refine ⟨rfl, rfl, rfl⟩

theorem drop_keyboard_failure_aborts_early_witness :
    (Window.drop (some 1)).isOk = false
    ∧ (Window.drop (some 1)).trace.countP XRequest.isUngrabPointer = 0 :=
  ⟨(drop_keyboard_failure_aborts_early 1 (by decide)).1,
   (drop_keyboard_failure_aborts_early 1 (by decide)).2.1⟩

/-- Constructor index of an event: its kind. -/
def Event.kindTag : Event → Nat
  | .expose _ => 0
  | .buttonPress _ => 1
  | .buttonRelease _ => 2
  | .motionNotify _ => 3
  | .enterNotify _ => 4
  | .leaveNotify _ => 5
  | .keyPress _ => 6
  | .keyRelease _ => 7
  | .other _ => 8

/-- Constructor index of a report: which `println!` format it came from. -/
def Report.tag : Report → Nat
  | .exposed _ _ _ _ _ => 0
  | .modifierState _ => 1
  | .wheelUp _ _ _ => 2
  | .wheelDown _ _ _ => 3
  | .buttonPressed _ _ _ _ => 4
  | .buttonReleased _ _ _ _ => 5
  | .mouseMoved _ _ _ => 6
  | .mouseEntered _ _ _ => 7
  | .mouseLeft _ _ _ => 8
  | .keyPressed _ => 9
  | .keyReleased _ => 10
  | .unknownEvent _ => 11

/-- C7: dispatch is total and deterministic; events of distinct kinds
produce distinct report formats (distinct sequences of format tags), and
every event outside the recognized set goes to the fallback branch,
which reports it unclassified and keeps the loop running. -/
theorem dispatch_total_and_kinds_distinct (e1 e2 : Event) (h : e1.kindTag ≠ e2.kindTag) :
    ((dispatch e1).1.map Report.tag ≠ (dispatch e2).1.map Report.tag)
    ∧ (∀ t : Nat, dispatch (Event.other t) = ([Report.unknownEvent t], true))
    ∧ (∀ t : Nat, ∀ rest : List RecvResult,
        (runLoop (RecvResult.ok (Event.other t) :: rest)).status = (runLoop rest).status
        ∧ (runLoop (RecvResult.ok (Event.other t) :: rest)).reports
            = Report.unknownEvent t :: (runLoop rest).reports) := by
  refine ⟨?_, fun t => rfl, ?_⟩
  · cases e1 <;> cases e2 <;>
      simp_all [Event.kindTag, dispatch, Report.tag] <;>
      split_ifs <;> simp [Report.tag]
  · intro t rest
    constructor
    · simp [runLoop, dispatch, LoopOutcome.status_prepend]
    · simp [runLoop, dispatch, LoopOutcome.reports_prepend]

theorem dispatch_total_and_kinds_distinct_witness :
    Event.kindTag (Event.other 99) ≠ Event.kindTag (Event.expose ⟨1, 2, 3, 4, 5⟩)
    ∧ ((dispatch (Event.other 99)).1.map Report.tag
        ≠ (dispatch (Event.expose ⟨1, 2, 3, 4, 5⟩)).1.map Report.tag) :=
  ⟨by decide,
   (dispatch_total_and_kinds_distinct (Event.other 99)
      (Event.expose ⟨1, 2, 3, 4, 5⟩) (by decide)).1⟩

/-- C8: event processing carries no state across iterations: after any
prefix of events that keeps the loop running, the reports added for the
next event and the continue/terminate decision are exactly `dispatch` of
that event, independent of the prefix. -/
theorem events_processed_independently (pfx : List RecvResult) (e : Event)
    (h : allContinue pfx = true) :
    (runLoop (pfx ++ [RecvResult.ok e])).reports
        = (runLoop pfx).reports ++ (dispatch e).1
    ∧ ((runLoop (pfx ++ [RecvResult.ok e])).status = LoopStatus.success
        ↔ (dispatch e).2 = false) := by
  have hsplit := runLoop_append pfx [RecvResult.ok e] h
  by_cases hd : (dispatch e).2 = true
  · constructor
    · rw [hsplit, LoopOutcome.reports_prepend]
      simp [runLoop, hd, LoopOutcome.prepend, LoopOutcome.reports]
    · rw [hsplit, LoopOutcome.status_prepend]
      simp [runLoop, hd, LoopOutcome.prepend, LoopOutcome.status]
  · simp only [Bool.not_eq_true] at hd
    constructor
    · rw [hsplit, LoopOutcome.reports_prepend]
      simp [runLoop, hd, LoopOutcome.reports]
    · rw [hsplit, LoopOutcome.status_prepend]
      simp [runLoop, hd, LoopOutcome.status]

theorem events_processed_independently_witness :
    (runLoop [RecvResult.ok (Event.other 0),
              RecvResult.ok (Event.buttonPress ⟨3, 0, 9, 1, 2⟩)]).reports
      = (runLoop [RecvResult.ok (Event.other 0)]).reports
          ++ (dispatch (Event.buttonPress ⟨3, 0, 9, 1, 2⟩)).1 :=
  (events_processed_independently [RecvResult.ok (Event.other 0)]
    (Event.buttonPress ⟨3, 0, 9, 1, 2⟩) (by decide)).1

/-- The request trace of a fully successful `Window::create`. -/
def createTraceFull (root rootVisual firstId : Nat) : List XRequest :=
  [XRequest.createWindow COPY_DEPTH_FROM_PARENT firstId root 455 140 1000 800 0
     WindowClass_INPUT_OUTPUT rootVisual 1 31 windowEventMask,
   XRequest.mapWindow firstId,
   XRequest.flush,
   XRequest.setInputFocus InputFocus_PARENT firstId CURRENT_TIME,
   XRequest.grabKeyboard true firstId CURRENT_TIME GrabMode_ASYNC GrabMode_ASYNC,
   XRequest.openFont (firstId + 1) "cursor",
   XRequest.createGlyphCursor (firstId + 2) (firstId + 1) (firstId + 1) 58 59 0 0 0 0 0 0,
   XRequest.grabPointer true firstId EventMask_NO_EVENT GrabMode_ASYNC GrabMode_ASYNC
     firstId (firstId + 2) CURRENT_TIME,
   XRequest.flush]

/-- A `Window::create` that returned `Ok` ran every step: its result is
the full trace, whatever the oracle said about later indices. -/
theorem Window.create_of_isOk (root rootVisual firstId : Nat) (failAt : Option Nat)
    (h : (Window.create root rootVisual firstId failAt).isOk = true) :
    Window.create root rootVisual firstId failAt
      = CreateResult.ok { id := firstId } (createTraceFull root rootVisual firstId) := by
  cases failAt with
  | none => rfl
  | some k =>
    rcases k with _|_|_|_|_|_|_|_|_|_|_|_|k <;> first | rfl | exact Bool.noConfusion h

/-- A `Drop::drop` body that ran to completion issued exactly the two
ungrabs and the flush. -/
theorem Window.drop_of_isOk (failAt : Option Nat)
    (h : (Window.drop failAt).isOk = true) :
    Window.drop failAt
      = DropResult.ok [XRequest.ungrabKeyboard CURRENT_TIME,
                       XRequest.ungrabPointer CURRENT_TIME, XRequest.flush] := by
  cases failAt with
  | none => rfl
  | some k =>
    rcases k with _|_|_|_|_|k <;> first | rfl | exact Bool.noConfusion h

/-- Under a successful connection, creation and teardown, and a loop that
actually ends, the whole-run trace is creation's trace followed by
teardown's. -/
theorem mainRun_trace_of_ok (inp : ProgInput) (hconn : inp.connectOk = true)
    (hcr : (Window.create inp.root inp.rootVisual inp.firstId inp.createFailAt).isOk = true)
    (hterm : (runLoop inp.events).status ≠ LoopStatus.pending)
    (hdrop : (Window.drop inp.dropFailAt).isOk = true) :
    (mainRun inp).trace
      = createTraceFull inp.root inp.rootVisual inp.firstId
          ++ [XRequest.ungrabKeyboard CURRENT_TIME,
              XRequest.ungrabPointer CURRENT_TIME, XRequest.flush] := by
  have hC := Window.create_of_isOk inp.root inp.rootVisual inp.firstId inp.createFailAt hcr
  have hD := Window.drop_of_isOk inp.dropFailAt hdrop
  cases hl : runLoop inp.events with
  | pending rs => rw [hl] at hterm; exact absurd rfl hterm
  | success rs => simp [mainRun, hconn, hC, hD, hl, ProgOutcome.trace]
  | failure rs => simp [mainRun, hconn, hC, hD, hl, ProgOutcome.trace]

/-- Whatever the oracle, creation sends at most one `create_window`. -/
theorem create_trace_count_le (root rootVisual firstId : Nat) (failAt : Option Nat) :
    (Window.create root rootVisual firstId failAt).trace.countP
      XRequest.isCreateWindow ≤ 1 := by
  cases failAt with
  | none => exact Nat.le_refl 1
  | some k =>
    rcases k with _|_|_|_|_|_|_|_|_|_|_|_|k <;>
      first | exact Nat.le_refl 1 | exact Nat.zero_le 1

/-- Teardown never sends a `create_window`. -/
theorem drop_trace_count_zero (failAt : Option Nat) :
    (Window.drop failAt).trace.countP XRequest.isCreateWindow = 0 := by
  cases failAt with
  | none => rfl
  | some k => rcases k with _|_|_|_|_|k <;> rfl

/-- Every run of `main`, however the oracles resolve, sends at most one
`create_window` request: at most one window ever exists. -/
theorem mainRun_at_most_one_create_window (j : ProgInput) :
    (mainRun j).trace.countP XRequest.isCreateWindow ≤ 1 := by
  by_cases hc : j.connectOk = false
  · simp [mainRun, hc, ProgOutcome.trace]
  · have hC := create_trace_count_le j.root j.rootVisual j.firstId j.createFailAt
    have hD := drop_trace_count_zero j.dropFailAt
    cases hcr : Window.create j.root j.rootVisual j.firstId j.createFailAt with
    | err t =>
        rw [hcr] at hC
        simp only [CreateResult.trace] at hC
        simpa [mainRun, hc, hcr, ProgOutcome.trace] using hC
    | ok w t =>
        rw [hcr] at hC
        simp only [CreateResult.trace] at hC
        cases hl : runLoop j.events with
        | pending rs =>
            simpa [mainRun, hc, hcr, hl, ProgOutcome.trace] using hC
        | success rs =>
            cases hd : Window.drop j.dropFailAt with
            | ok td =>
                rw [hd] at hD
                simp only [DropResult.trace] at hD
                simp [mainRun, hc, hcr, hl, hd, ProgOutcome.trace, List.countP_append, hD]
                omega
            | aborted td =>
                rw [hd] at hD
                simp only [DropResult.trace] at hD
                simp [mainRun, hc, hcr, hl, hd, ProgOutcome.trace, List.countP_append, hD]
                omega
        | failure rs =>
            cases hd : Window.drop j.dropFailAt with
            | ok td =>
                rw [hd] at hD
                simp only [DropResult.trace] at hD
                simp [mainRun, hc, hcr, hl, hd, ProgOutcome.trace, List.countP_append, hD]
                omega
            | aborted td =>
                rw [hd] at hD
                simp only [DropResult.trace] at hD
                simp [mainRun, hc, hcr, hl, hd, ProgOutcome.trace, List.countP_append, hD]
                omega

/-- C3: the process exits with success status exactly when connect,
creation and teardown succeed and a primary (code 1) button press is
observed by the loop before any receive error; any setup, receive, or
teardown failure yields a failure exit; and a receive error ends the loop
at once — no error is caught and retried. -/
theorem exit_status_matches_events (inp : ProgInput) :
    ((mainRun inp).isExitSuccess = true ↔
        inp.connectOk = true
        ∧ (Window.create inp.root inp.rootVisual inp.firstId inp.createFailAt).isOk = true
        ∧ terminatesWithPrimary inp.events = true
        ∧ (Window.drop inp.dropFailAt).isOk = true)
    ∧ (∀ e : Event, (dispatch e).2 = false ↔ ∃ b, e = Event.buttonPress b ∧ b.detail = 1)
    ∧ (inp.connectOk = false → (mainRun inp).isExitFailure = true)
    ∧ ((Window.create inp.root inp.rootVisual inp.firstId inp.createFailAt).isOk = false
        → inp.connectOk = true → (mainRun inp).isExitFailure = true)
    ∧ ((runLoop inp.events).status = LoopStatus.failure → inp.connectOk = true
        → (mainRun inp).isExitFailure = true)
    ∧ ((Window.drop inp.dropFailAt).isOk = false
        → (runLoop inp.events).status ≠ LoopStatus.pending → inp.connectOk = true
        → (mainRun inp).isExitFailure = true)
    ∧ (∀ rest : List RecvResult, runLoop (RecvResult.err :: rest) = LoopOutcome.failure []) := by
  have hsi := runLoop_success_iff inp.events
  refine ⟨?_, ?_, ?_, ?_, ?_, ?_, fun rest => rfl⟩
  · by_cases hc : inp.connectOk = false
    · simp [mainRun, hc, ProgOutcome.isExitSuccess]
    · simp only [Bool.not_eq_false] at hc
      cases hcr : Window.create inp.root inp.rootVisual inp.firstId inp.createFailAt with
      | err t =>
          simp [mainRun, hc, hcr, ProgOutcome.isExitSuccess, CreateResult.isOk]
      | ok w t =>
          cases hl : runLoop inp.events with
          | pending rs =>
              rw [hl] at hsi
              simp only [LoopOutcome.status] at hsi
              simp [mainRun, hc, hcr, hl, ProgOutcome.isExitSuccess, ← hsi]
          | success rs =>
              rw [hl] at hsi
              simp only [LoopOutcome.status] at hsi
              cases hd : Window.drop inp.dropFailAt with
              | ok td =>
                  simp [mainRun, hc, hcr, hl, hd, ProgOutcome.isExitSuccess,
                        CreateResult.isOk, DropResult.isOk, ← hsi]
              | aborted td =>
                  simp [mainRun, hc, hcr, hl, hd, ProgOutcome.isExitSuccess,
                        DropResult.isOk]
          | failure rs =>
              rw [hl] at hsi
              simp only [LoopOutcome.status] at hsi
              cases hd : Window.drop inp.dropFailAt with
              | ok td =>
                  simp [mainRun, hc, hcr, hl, hd, ProgOutcome.isExitSuccess, ← hsi]
              | aborted td =>
                  simp [mainRun, hc, hcr, hl, hd, ProgOutcome.isExitSuccess, ← hsi]
  · intro e
    cases e with
    | buttonPress b =>
        by_cases hb : b.detail = 1
        · simp [dispatch, hb]
        · simp only [dispatch, hb, if_false]
          split_ifs <;> simp [hb]
    | expose a => simp [dispatch]
    | buttonRelease a => simp [dispatch]
    | motionNotify a => simp [dispatch]
    | enterNotify a => simp [dispatch]
    | leaveNotify a => simp [dispatch]
    | keyPress a => simp [dispatch]
    | keyRelease a => simp [dispatch]
    | other t => simp [dispatch]
  · intro h3
    simp [mainRun, h3, ProgOutcome.isExitFailure]
  · intro h4 hc
    cases hcr : Window.create inp.root inp.rootVisual inp.firstId inp.createFailAt with
    | err t => simp [mainRun, hc, hcr, ProgOutcome.isExitFailure]
    | ok w t => rw [hcr] at h4; simp [CreateResult.isOk] at h4
  · intro h5 hc
    cases hcr : Window.create inp.root inp.rootVisual inp.firstId inp.createFailAt with
    | err t => simp [mainRun, hc, hcr, ProgOutcome.isExitFailure]
    | ok w t =>
        cases hl : runLoop inp.events with
        | pending rs => rw [hl] at h5; simp [LoopOutcome.status] at h5
        | success rs => rw [hl] at h5; simp [LoopOutcome.status] at h5
        | failure rs =>
            cases hd : Window.drop inp.dropFailAt with
            | ok td => simp [mainRun, hc, hcr, hl, hd, ProgOutcome.isExitFailure]
            | aborted td => simp [mainRun, hc, hcr, hl, hd, ProgOutcome.isExitFailure]
  · intro h6 hterm hc
    cases hcr : Window.create inp.root inp.rootVisual inp.firstId inp.createFailAt with
    | err t => simp [mainRun, hc, hcr, ProgOutcome.isExitFailure]
    | ok w t =>
        cases hl : runLoop inp.events with
        | pending rs => rw [hl] at hterm; exact absurd rfl hterm
        | success rs =>
            cases hd : Window.drop inp.dropFailAt with
            | ok td => rw [hd] at h6; simp [DropResult.isOk] at h6
            | aborted td => simp [mainRun, hc, hcr, hl, hd, ProgOutcome.isExitFailure]
        | failure rs =>
            cases hd : Window.drop inp.dropFailAt with
            | ok td => simp [mainRun, hc, hcr, hl, hd, ProgOutcome.isExitFailure]
            | aborted td => simp [mainRun, hc, hcr, hl, hd, ProgOutcome.isExitFailure]

theorem exit_status_matches_events_witness :
    (mainRun { connectOk := true, root := 0, rootVisual := 0, firstId := 1,
               createFailAt := none,
               events := [RecvResult.ok (Event.buttonPress ⟨1, 0, 0, 0, 0⟩)],
               dropFailAt := none }).isExitSuccess = true :=
  (exit_status_matches_events
    { connectOk := true, root := 0, rootVisual := 0, firstId := 1,
      createFailAt := none,
      events := [RecvResult.ok (Event.buttonPress ⟨1, 0, 0, 0, 0⟩)],
      dropFailAt := none }).1.mpr ⟨rfl, rfl, rfl, rfl⟩

/-- C2 as stated is false on the code: with every call succeeding up to
and including `grab_keyboard` and `open_font` then failing (oracle index
7), `Window::create` returns `Err` before the `Window` value exists, so
`Drop` never runs: the run sends one `grab_keyboard` and zero
`ungrab_keyboard` requests, then the process exits with failure. -/
theorem grab_released_on_unwind_counterexample :
    ((mainRun { connectOk := true, root := 0, rootVisual := 0, firstId := 1,
                createFailAt := some 7, events := [], dropFailAt := none }).trace.countP
        XRequest.isGrabKeyboard = 1)
    ∧ ((mainRun { connectOk := true, root := 0, rootVisual := 0, firstId := 1,
                  createFailAt := some 7, events := [], dropFailAt := none }).trace.countP
        XRequest.isUngrabKeyboard = 0)
    ∧ (mainRun { connectOk := true, root := 0, rootVisual := 0, firstId := 1,
                 createFailAt := some 7, events := [], dropFailAt := none }).isExitFailure
        = true :=
  ⟨rfl, rfl, rfl⟩

/-- C2 (amended): at most one window ever exists in any run; in every run
whose creation succeeded, whose loop actually ended (normally or through
a receive error), and whose teardown ran without aborting, the keyboard
and pointer grabs are each acquired exactly once and released exactly
once.  If creation itself fails after the keyboard grab was acquired, no
teardown runs and the client never releases that grab. -/
theorem grab_lifetime_matches_window_lifetime (inp : ProgInput)
    (hconn : inp.connectOk = true)
    (hcr : (Window.create inp.root inp.rootVisual inp.firstId inp.createFailAt).isOk = true)
    (hterm : (runLoop inp.events).status ≠ LoopStatus.pending)
    (hdrop : (Window.drop inp.dropFailAt).isOk = true) :
    (mainRun inp).trace.countP XRequest.isGrabKeyboard = 1
    ∧ (mainRun inp).trace.countP XRequest.isUngrabKeyboard = 1
    ∧ (mainRun inp).trace.countP XRequest.isGrabPointer = 1
    ∧ (mainRun inp).trace.countP XRequest.isUngrabPointer = 1
    ∧ (∀ j : ProgInput, (mainRun j).trace.countP XRequest.isCreateWindow ≤ 1) := by
  rw [mainRun_trace_of_ok inp hconn hcr hterm hdrop]
  exact ⟨rfl, rfl, rfl, rfl, mainRun_at_most_one_create_window⟩

theorem grab_lifetime_matches_window_lifetime_witness :
    (mainRun { connectOk := true, root := 0, rootVisual := 0, firstId := 1,
               createFailAt := none,
               events := [RecvResult.ok (Event.buttonPress ⟨1, 0, 0, 0, 0⟩)],
               dropFailAt := none }).trace.countP XRequest.isUngrabKeyboard = 1 :=
  (grab_lifetime_matches_window_lifetime
    { connectOk := true, root := 0, rootVisual := 0, firstId := 1,
      createFailAt := none,
      events := [RecvResult.ok (Event.buttonPress ⟨1, 0, 0, 0, 0⟩)],
      dropFailAt := none } rfl rfl (by decide) rfl).2.1
